import Mathlib

/-!
# Verification of the wallet/escrow ledger service

Shallow embedding of the ledger consistency engine of the wallet service:
the brand wallet (token and escrow balances), the creator wallet, the
append-only transaction logs, and the engine operations
(`holdEscrow`, `releaseEscrow`, `refundEscrow`, `verifyEscrowDeposit`,
`verifyRecharge`, `handleWebhook`, `unlockCreator`, `requestWithdrawal`,
`processWithdrawal`).

Modelling conventions:
* Monetary and token amounts are `Int` (the store holds numerics that the
  service reads via `parseFloat`/`parseInt`; fractional cents play no role
  in any property considered here).
* The state models one brand wallet and one creator wallet (the pair the
  escrow protocol moves money between) together with their transaction
  logs, the brand's unlock records and the creator's bank accounts.
* Each service call runs inside one storage transaction (or makes no
  write before its first possible failure), so an operation is a single
  total function `Ledger → Except String Unit × Ledger`: on a thrown
  error the returned state is the rolled-back one, except where the
  source performs a separate outer write marking a transaction `failed`
  after rollback, which is modelled explicitly.
* External collaborators are abstracted by booleans: the payment
  authority's signature/HMAC check (`sigValid`) and a storage failure
  inside a credit block (`creditFails`, the `catch` arm of the source's
  try/catch around the credit transaction).
* Timestamps are `Nat` values passed in as `now`; interpolated parts of
  error message strings are dropped (messages keep their fixed prefix).
-/

/-- Brand wallet row (`brand_wallets`): token and escrow balance fields,
running totals, and the subscription package mapping. -/
structure BrandWallet where
  token_balance : Int
  total_tokens_credited : Int
  total_tokens_debited : Int
  escrow_balance : Int
  escrow_on_hold : Int
  total_escrow_deposited : Int
  total_escrow_released : Int
  total_escrow_refunded : Int
  current_package : Option String
  current_package_id : Option String
  package_activated_at : Option Nat
  package_expires_at : Option Nat
deriving Repr, DecidableEq

/-- Creator wallet row (`wallets`). -/
structure CreatorWallet where
  balance : Int
  pending_balance : Int
  total_earnings : Int
  total_withdrawals : Int
deriving Repr, DecidableEq

/-- Package snapshot stored in a pending recharge transaction's metadata
by `initiateRecharge` and read back by `verifyRecharge`/`handleWebhook`. -/
structure TxMeta where
  tokens_included : Int
  package_type : String
  package_name : String
  package_id : String
  validity_days : Option Nat
deriving Repr, DecidableEq

/-- Brand transaction row (`brand_transactions`). -/
structure BrandTx where
  id : String
  transaction_type : String
  amount : Int
  currency_type : String
  balance_after : Int
  reference_type : String
  reference_id : Option String
  payment_gateway_id : Option String
  status : String
  failure_reason : Option String
  meta : Option TxMeta
deriving Repr, DecidableEq

/-- Creator transaction row (`transactions`). `createTransaction` inserts
rows without any `balance_after` value, hence the `Option`. -/
structure CreatorTx where
  id : String
  transaction_type : String
  amount : Int
  balance_after : Option Int
  reference_type : Option String
  reference_id : Option String
  bank_account_id : Option String
  status : String
  failure_reason : Option String
deriving Repr, DecidableEq

/-- Bank account row (`bank_accounts`), the fields `requestWithdrawal`
reads. -/
structure BankAcct where
  id : String
  user_id : String
  verification_status : String
deriving Repr, DecidableEq

/-- The persistent state seen by the engine: one brand wallet, one
creator wallet, their transaction logs, the brand's unlock records
(`brand_unlocked_creators`, as the list of unlocked creator ids) and
the creator's bank accounts. -/
structure Ledger where
  brand : BrandWallet
  creator : CreatorWallet
  brandTxs : List BrandTx
  creatorTxs : List CreatorTx
  unlocked : List String
  bankAccounts : List BankAcct
deriving Repr, DecidableEq

/-- Lookup of a pending transaction by
`(transaction_id, payment_gateway_id, status = pending)`, the query both
`verifyRecharge` and `verifyEscrowDeposit` start with. -/
def findPendingBrandTx (txId orderId : String) (txs : List BrandTx) : Option BrandTx :=
  txs.find? fun t => t.id == txId && t.payment_gateway_id == some orderId && t.status == "pending"

/-- `UPDATE brand_transactions SET status = st, failure_reason = r WHERE id = txId`. -/
def markBrandTx (txId st : String) (reason : Option String) (txs : List BrandTx) : List BrandTx :=
  txs.map fun t => if t.id == txId then { t with status := st, failure_reason := reason } else t

/-- `UPDATE brand_transactions SET status = completed, balance_after = nb WHERE id = txId`. -/
def completeBrandTx (txId : String) (nb : Int) (txs : List BrandTx) : List BrandTx :=
  txs.map fun t =>
    if t.id == txId then { t with status := "completed", balance_after := nb } else t

/-- `updateTransactionStatus` on the creator transaction table. -/
def markCreatorTx (txId st : String) (reason : Option String) (txs : List CreatorTx) : List CreatorTx :=
  txs.map fun t => if t.id == txId then { t with status := st, failure_reason := reason } else t

/-- `holdEscrow` (escrow service): rejects non-positive amounts, rejects
when `escrow_balance < amount`, otherwise moves `amount` from
`escrow_balance` to `escrow_on_hold` and appends a completed
`escrow_hold` brand transaction, all in one storage transaction. -/
def holdEscrow (amount : Int) (campaignId : String) (s : Ledger) :
    Except String Unit × Ledger :=
  if amount ≤ 0 then (Except.error "Amount must be greater than 0", s)
  else if s.brand.escrow_balance < amount then
    (Except.error "Insufficient escrow balance", s)
  else
    let w := { s.brand with
      escrow_balance := s.brand.escrow_balance - amount,
      escrow_on_hold := s.brand.escrow_on_hold + amount }
    let tx : BrandTx :=
      { id := "hold_" ++ campaignId, transaction_type := "escrow_hold", amount := amount,
        currency_type := "escrow", balance_after := w.escrow_balance,
        reference_type := "campaign", reference_id := some campaignId,
        payment_gateway_id := none, status := "completed", failure_reason := none,
        meta := none }
    (Except.ok (), { s with brand := w, brandTxs := s.brandTxs ++ [tx] })

/-- `releaseEscrow`: rejects non-positive amounts, rejects when
`escrow_on_hold < amount`; otherwise, in one storage transaction,
decrements the brand's `escrow_on_hold`, increments
`total_escrow_released`, appends a completed brand-side `escrow_release`
transaction (whose `balance_after` is the post-update `escrow_balance`),
credits the creator's `balance` and `total_earnings`, and appends a
completed creator-side `earning` transaction whose `balance_after` is
computed from the pre-increment read of the creator wallet plus the
amount, exactly as the source does. -/
def releaseEscrow (amount : Int) (campaignId applicationId : String) (s : Ledger) :
    Except String Unit × Ledger :=
  if amount ≤ 0 then (Except.error "Amount must be greater than 0", s)
  else if s.brand.escrow_on_hold < amount then
    (Except.error "Insufficient escrow on hold", s)
  else
    let w := { s.brand with
      escrow_on_hold := s.brand.escrow_on_hold - amount,
      total_escrow_released := s.brand.total_escrow_released + amount }
    let btx : BrandTx :=
      { id := "release_" ++ applicationId, transaction_type := "escrow_release",
        amount := amount, currency_type := "escrow", balance_after := w.escrow_balance,
        reference_type := "application", reference_id := some applicationId,
        payment_gateway_id := none, status := "completed", failure_reason := none,
        meta := none }
    let newCreatorBalance := s.creator.balance + amount
    let c := { s.creator with
      balance := s.creator.balance + amount,
      total_earnings := s.creator.total_earnings + amount }
    let ctx : CreatorTx :=
      { id := "earning_" ++ applicationId, transaction_type := "earning", amount := amount,
        balance_after := some newCreatorBalance, reference_type := some "campaign",
        reference_id := some campaignId, bank_account_id := none,
        status := "completed", failure_reason := none }
    let s' := { s with
      brand := w, creator := c,
      brandTxs := s.brandTxs ++ [btx], creatorTxs := s.creatorTxs ++ [ctx] }
    (Except.ok (), s')

/-- `refundEscrow`: rejects non-positive amounts, rejects when
`escrow_on_hold < amount`; otherwise moves `amount` from on-hold back to
`escrow_balance`, increments `total_escrow_refunded` and appends one
completed `escrow_refund` transaction. -/
def refundEscrow (amount : Int) (campaignId : String) (s : Ledger) :
    Except String Unit × Ledger :=
  if amount ≤ 0 then (Except.error "Amount must be greater than 0", s)
  else if s.brand.escrow_on_hold < amount then
    (Except.error "Insufficient escrow on hold", s)
  else
    let w := { s.brand with
      escrow_on_hold := s.brand.escrow_on_hold - amount,
      escrow_balance := s.brand.escrow_balance + amount,
      total_escrow_refunded := s.brand.total_escrow_refunded + amount }
    let tx : BrandTx :=
      { id := "refund_" ++ campaignId, transaction_type := "escrow_refund", amount := amount,
        currency_type := "escrow", balance_after := w.escrow_balance,
        reference_type := "campaign", reference_id := some campaignId,
        payment_gateway_id := none, status := "completed", failure_reason := none,
        meta := none }
    (Except.ok (), { s with brand := w, brandTxs := s.brandTxs ++ [tx] })

/-- `verifyEscrowDeposit`: looks up the pending transaction by
`(transaction_id, order id, status = pending)`; absence is the
already-processed error. An invalid signature marks the transaction
`failed` (outer write) and errors. Otherwise it credits
`escrow_balance`/`total_escrow_deposited` by the transaction's amount
and completes the transaction in one storage transaction; a storage
failure in that block (`creditFails`) rolls back and marks the
transaction `failed` in a separate outer write. -/
def verifyEscrowDeposit (txId orderId : String) (sigValid creditFails : Bool) (s : Ledger) :
    Except String Unit × Ledger :=
  match findPendingBrandTx txId orderId s.brandTxs with
  | none => (Except.error "Transaction not found or already processed", s)
  | some tx =>
    if !sigValid then
      (Except.error "Payment verification failed",
        { s with brandTxs := markBrandTx txId "failed" (some "Invalid payment signature") s.brandTxs })
    else if creditFails then
      (Except.error "Failed to credit escrow. Please contact support.",
        { s with brandTxs := markBrandTx txId "failed" (some "credit error") s.brandTxs })
    else
      let amt := tx.amount
      let w := { s.brand with
        escrow_balance := s.brand.escrow_balance + amt,
        total_escrow_deposited := s.brand.total_escrow_deposited + amt }
      let s' := { s with
        brand := w,
        brandTxs := completeBrandTx txId w.escrow_balance s.brandTxs }
      (Except.ok (), s')

/-- The token amount `verifyRecharge`/`handleWebhook` read from a
transaction's metadata: `parseInt(metadata.tokens_included, 10) || 0`. -/
def metaTokens (tx : BrandTx) : Int :=
  (tx.meta.map (·.tokens_included)).getD 0

/-- The package type read from metadata:
`metadata.package_type || 'subscription'`. -/
def metaPackageType (tx : BrandTx) : String :=
  (tx.meta.map (·.package_type)).getD "subscription"

/-- `verifyRecharge`: looks up the pending transaction by
`(transaction_id, order id, status = pending)` (absence: already
processed / forged input). An invalid signature flips the transaction to
`failed` and errors. An invalid token amount in the metadata
(`tokensToCredit ≤ 0`) errors with no write at all. Otherwise, in one
storage transaction, it credits `token_balance` and
`total_tokens_credited`, updates the package mapping
(`current_package`, `current_package_id`, `package_activated_at`,
`package_expires_at`) only when the metadata package type is
`subscription`, and completes the transaction with
`balance_after = newBalance`; a storage failure inside this block
(`creditFails`) rolls it back and marks the transaction `failed` in a
separate outer write. -/
def verifyRecharge (txId orderId : String) (sigValid creditFails : Bool) (now : Nat)
    (s : Ledger) : Except String Unit × Ledger :=
  match findPendingBrandTx txId orderId s.brandTxs with
  | none => (Except.error "Transaction not found or already processed", s)
  | some tx =>
    if !sigValid then
      (Except.error "Payment verification failed. Please contact support if amount was deducted.",
        { s with brandTxs := markBrandTx txId "failed" (some "Invalid payment signature") s.brandTxs })
    else
      let tokensToCredit := metaTokens tx
      if tokensToCredit ≤ 0 then
        (Except.error "Invalid token amount in transaction", s)
      else if creditFails then
        (Except.error "Payment successful but failed to credit tokens. Please contact support.",
          { s with brandTxs := markBrandTx txId "failed" (some "credit error") s.brandTxs })
      else
        let newBalance := s.brand.token_balance + tokensToCredit
        let w1 := { s.brand with
          token_balance := newBalance,
          total_tokens_credited := s.brand.total_tokens_credited + tokensToCredit }
        let w2 :=
          if metaPackageType tx = "subscription" then
            { w1 with
              current_package := some ((tx.meta.map (·.package_name)).getD "unknown"),
              current_package_id := some ((tx.meta.map (·.package_id)).getD ""),
              package_activated_at := some now,
              package_expires_at := (tx.meta.bind (·.validity_days)).map (fun d => now + d) }
          else w1
        let s' := { s with
          brand := w2,
          brandTxs := completeBrandTx txId newBalance s.brandTxs }
        (Except.ok (), s')

/-- The `payment.captured` branch of `handleWebhook`: an invalid HMAC
returns an error with no write; the pending transaction is looked up by
order id alone; the credit block credits the metadata token amount (with
no positivity check) and unconditionally overwrites `current_package`
and `package_activated_at` with the metadata package name and the
current time, regardless of the package type; a storage failure in the
block rolls it back and returns the error with the transaction left
pending (the webhook has no outer failure-marking write). -/
def handleWebhook (orderId : String) (sigValid creditFails : Bool) (now : Nat)
    (s : Ledger) : Except String Unit × Ledger :=
  if !sigValid then (Except.error "Invalid signature", s)
  else
    match s.brandTxs.find? (fun t => t.payment_gateway_id == some orderId && t.status == "pending") with
    | none => (Except.error "Transaction already processed", s)
    | some tx =>
      if creditFails then (Except.error "credit error", s)
      else
        let tokensToCredit := metaTokens tx
        let packageName := (tx.meta.map (·.package_name)).getD "unknown"
        let newBalance := s.brand.token_balance + tokensToCredit
        let w := { s.brand with
          token_balance := newBalance,
          total_tokens_credited := s.brand.total_tokens_credited + tokensToCredit,
          current_package := some packageName,
          package_activated_at := some now }
        let s' := { s with
          brand := w,
          brandTxs := completeBrandTx tx.id newBalance s.brandTxs }
        (Except.ok (), s')

/-- The report token cost used by `unlockCreator`:
`parseFloat(package.report_token_cost) || 5`. -/
def effectiveCost (cost : Int) : Int := if cost = 0 then 5 else cost

/-- `unlockCreator`: requires an active package; rejects when the
`(brand, creator)` pair is already unlocked (rollback, state unchanged),
when the creator does not exist, and when `token_balance` is below the
report token cost; otherwise, in one storage transaction, debits the
cost from `token_balance`, bumps `total_tokens_debited`, appends a
completed `creator_unlock` brand transaction and records the unlock. -/
def unlockCreator (creatorId : String) (hasPackage creatorExists : Bool)
    (reportTokenCost : Int) (s : Ledger) : Except String Unit × Ledger :=
  if !hasPackage then (Except.error "No active package found for brand", s)
  else
    let cost := effectiveCost reportTokenCost
    if s.unlocked.contains creatorId then
      (Except.error "Creator profile is already unlocked", s)
    else if !creatorExists then (Except.error "Creator not found", s)
    else if s.brand.token_balance < cost then
      (Except.error "Insufficient token balance", s)
    else
      let newTokenBalance := s.brand.token_balance - cost
      let w := { s.brand with
        token_balance := newTokenBalance,
        total_tokens_debited := s.brand.total_tokens_debited + cost }
      let tx : BrandTx :=
        { id := "unlock_" ++ creatorId, transaction_type := "creator_unlock", amount := cost,
          currency_type := "token", balance_after := newTokenBalance,
          reference_type := "creator_unlock", reference_id := some creatorId,
          payment_gateway_id := none, status := "completed", failure_reason := none,
          meta := none }
      let s' := { s with
        brand := w,
        brandTxs := s.brandTxs ++ [tx], unlocked := s.unlocked ++ [creatorId] }
      (Except.ok (), s')

/-- `requestWithdrawal` (transaction service): looks up the bank account
by `(id, user_id)` (miss: not found / not owned), rejects an unverified
account, rejects `balance < amount`; otherwise inserts a pending
`withdrawal` transaction via `createTransaction` (stored amount is
`-amount`, no `balance_after`), then decrements `balance` and increments
`pending_balance` by `amount`. The source performs no minimum-amount
check and no positivity check. `txId` models the id the store assigns to
the inserted row. -/
def requestWithdrawal (userId : String) (amount : Int) (bankAccountId txId : String)
    (s : Ledger) : Except String Unit × Ledger :=
  match s.bankAccounts.find? (fun a => a.id == bankAccountId && a.user_id == userId) with
  | none => (Except.error "Bank account not found", s)
  | some acct =>
    if acct.verification_status != "verified" then
      (Except.error "Bank account must be verified for withdrawals", s)
    else if s.creator.balance < amount then
      (Except.error "Insufficient balance", s)
    else
      let tx : CreatorTx :=
        { id := txId, transaction_type := "withdrawal", amount := -amount,
          balance_after := none, reference_type := none, reference_id := none,
          bank_account_id := some bankAccountId, status := "pending",
          failure_reason := none }
      let c := { s.creator with
        balance := s.creator.balance - amount,
        pending_balance := s.creator.pending_balance + amount }
      (Except.ok (), { s with creator := c, creatorTxs := s.creatorTxs ++ [tx] })

/-- `processWithdrawal`: finds the transaction by id, rejects when it is
not a withdrawal or not in `pending`/`processing`. With `success = true`
it marks the transaction `completed`, decrements `pending_balance` and
increments `total_withdrawals` by `|amount|`; with `success = false` it
marks it `failed` with the reason, re-credits `balance` and decrements
`pending_balance`. -/
def processWithdrawal (txId : String) (success : Bool) (failureReason : Option String)
    (s : Ledger) : Except String Unit × Ledger :=
  match s.creatorTxs.find? (fun t => t.id == txId) with
  | none => (Except.error "Transaction not found", s)
  | some tx =>
    if tx.transaction_type != "withdrawal" then
      (Except.error "Transaction is not a withdrawal", s)
    else if tx.status != "pending" && tx.status != "processing" then
      (Except.error "Transaction cannot be processed", s)
    else
      let amt := |tx.amount|
      if success then
        let c := { s.creator with
          pending_balance := s.creator.pending_balance - amt,
          total_withdrawals := s.creator.total_withdrawals + amt }
        let s' := { s with
          creator := c,
          creatorTxs := markCreatorTx txId "completed" none s.creatorTxs }
        (Except.ok (), s')
      else
        let c := { s.creator with
          balance := s.creator.balance + amt,
          pending_balance := s.creator.pending_balance - amt }
        let s' := { s with
          creator := c,
          creatorTxs := markCreatorTx txId "failed" failureReason s.creatorTxs }
        (Except.ok (), s')

/-- The balance-mutating engine operations, as an alphabet for reasoning
about arbitrary operation sequences. Parameters model the request inputs
and the abstracted external collaborators. -/
inductive Op where
  | hold (amount : Int) (campaignId : String)
  | release (amount : Int) (campaignId applicationId : String)
  | refund (amount : Int) (campaignId : String)
  | depositVerify (txId orderId : String) (sigValid creditFails : Bool)
  | rechargeVerify (txId orderId : String) (sigValid creditFails : Bool) (now : Nat)
  | webhook (orderId : String) (sigValid creditFails : Bool) (now : Nat)
  | unlock (creatorId : String) (hasPackage creatorExists : Bool) (cost : Int)
  | withdrawReq (userId : String) (amount : Int) (acctId txId : String)
  | withdrawProc (txId : String) (success : Bool) (reason : Option String)
deriving Repr, DecidableEq

/-- The state reached after an engine call (the second component of the
operation's result, whether the call succeeded or threw). -/
def Op.step : Op → Ledger → Ledger
  | .hold a cid, s => (holdEscrow a cid s).2
  | .release a cid aid, s => (releaseEscrow a cid aid s).2
  | .refund a cid, s => (refundEscrow a cid s).2
  | .depositVerify t o sv cf, s => (verifyEscrowDeposit t o sv cf s).2
  | .rechargeVerify t o sv cf now, s => (verifyRecharge t o sv cf now s).2
  | .webhook o sv cf now, s => (handleWebhook o sv cf now s).2
  | .unlock c hp ce cost, s => (unlockCreator c hp ce cost s).2
  | .withdrawReq u a acc t, s => (requestWithdrawal u a acc t s).2
  | .withdrawProc t suc r, s => (processWithdrawal t suc r s).2

/-- Validation-layer side condition: request amounts are positive and the
package report token cost is non-negative. -/
def Op.positiveAmt : Op → Bool
  | .hold a _ => 0 < a
  | .release a _ _ => 0 < a
  | .refund a _ => 0 < a
  | .unlock _ _ _ cost => 0 ≤ cost
  | .withdrawReq _ a _ _ => 0 < a
  | _ => true

/-- Run a sequence of engine operations from an initial state. -/
def run : List Op → Ledger → Ledger
  | [], s => s
  | op :: ops, s => run ops (op.step s)

/-- The amount a creator transaction contributes to the withdrawal
reservation: `|amount|` for an in-flight (`pending`/`processing`)
withdrawal, `0` otherwise. -/
def pendContribution (t : CreatorTx) : Int :=
  if t.transaction_type = "withdrawal" ∧ (t.status = "pending" ∨ t.status = "processing")
  then |t.amount| else 0

/-- Total withdrawal reservation recorded in the creator's transaction
log. -/
def sumPend (txs : List CreatorTx) : Int := (txs.map pendContribution).sum

/-- Every balance field of both wallets is non-negative. -/
def NonNeg (s : Ledger) : Prop :=
  0 ≤ s.brand.token_balance ∧ 0 ≤ s.brand.total_tokens_credited ∧
  0 ≤ s.brand.total_tokens_debited ∧ 0 ≤ s.brand.escrow_balance ∧
  0 ≤ s.brand.escrow_on_hold ∧ 0 ≤ s.brand.total_escrow_deposited ∧
  0 ≤ s.brand.total_escrow_released ∧ 0 ≤ s.brand.total_escrow_refunded ∧
  0 ≤ s.creator.balance ∧ 0 ≤ s.creator.pending_balance ∧
  0 ≤ s.creator.total_earnings ∧ 0 ≤ s.creator.total_withdrawals

instance : DecidablePred NonNeg := fun s => by unfold NonNeg; infer_instance

/-- Well-formedness of a ledger state: every balance field is
non-negative, the creator's `pending_balance` covers the reservation
recorded by in-flight withdrawal transactions, and pending brand
transactions (created by the initiate operations, which only insert
positive amounts and non-negative token snapshots) carry non-negative
amounts and metadata token counts. -/
def LedgerInv (s : Ledger) : Prop :=
  0 ≤ s.brand.token_balance ∧ 0 ≤ s.brand.total_tokens_credited ∧
  0 ≤ s.brand.total_tokens_debited ∧ 0 ≤ s.brand.escrow_balance ∧
  0 ≤ s.brand.escrow_on_hold ∧ 0 ≤ s.brand.total_escrow_deposited ∧
  0 ≤ s.brand.total_escrow_released ∧ 0 ≤ s.brand.total_escrow_refunded ∧
  0 ≤ s.creator.balance ∧ 0 ≤ s.creator.total_earnings ∧
  0 ≤ s.creator.total_withdrawals ∧
  sumPend s.creatorTxs ≤ s.creator.pending_balance ∧
  ∀ t ∈ s.brandTxs, t.status = "pending" → 0 ≤ t.amount ∧ 0 ≤ metaTokens t

instance : DecidablePred LedgerInv := fun s => by unfold LedgerInv; infer_instance

theorem pendContribution_nonneg (t : CreatorTx) : 0 ≤ pendContribution t := by
  unfold pendContribution
  split
  · exact abs_nonneg _
  · exact le_refl 0

theorem sumPend_nonneg (txs : List CreatorTx) : 0 ≤ sumPend txs := by
  unfold sumPend
  induction txs with
  | nil => simp
  | cons t ts ih =>
    simp only [List.map_cons, List.sum_cons]
    have := pendContribution_nonneg t
    omega

theorem sumPend_append (a b : List CreatorTx) : sumPend (a ++ b) = sumPend a + sumPend b := by
  unfold sumPend
  simp

/-- Marking transactions with a terminal status never increases the
recorded withdrawal reservation. -/
theorem sumPend_mark_le (i st : String) (r : Option String) (txs : List CreatorTx)
    (hst : st ≠ "pending" ∧ st ≠ "processing") :
    sumPend (markCreatorTx i st r txs) ≤ sumPend txs := by
  unfold markCreatorTx sumPend
  induction txs with
  | nil => simp
  | cons t ts ih =>
    simp only [List.map_cons, List.sum_cons]
    have hle : pendContribution (if (t.id == i) = true then
        { t with status := st, failure_reason := r } else t) ≤ pendContribution t := by
      split
      · unfold pendContribution
        simp only
        split
        · rename_i hcond
          exact absurd hcond.2 (by simp [hst.1, hst.2])
        · exact pendContribution_nonneg t
      · exact le_refl _
    omega

/-- If an in-flight withdrawal transaction is found by id, marking that
id with a terminal status reduces the reservation by at least that
transaction's contribution. -/
theorem sumPend_mark_found (i st : String) (r : Option String) (txs : List CreatorTx)
    (t : CreatorTx) (hfind : txs.find? (fun x => x.id == i) = some t)
    (hst : st ≠ "pending" ∧ st ≠ "processing") :
    pendContribution t + sumPend (markCreatorTx i st r txs) ≤ sumPend txs := by
  induction txs with
  | nil => simp at hfind
  | cons hd ts ih =>
    rw [List.find?_cons] at hfind
    by_cases hhd : (hd.id == i) = true
    · simp only [hhd, cond_true, Option.some.injEq] at hfind
      subst hfind
      unfold markCreatorTx sumPend
      simp only [List.map_cons, List.sum_cons, List.map_map]
      have h1 : pendContribution (if (hd.id == i) = true then
          { hd with status := st, failure_reason := r } else hd) = 0 := by
        simp only [hhd, if_pos]
        unfold pendContribution
        split
        · rename_i hcond
          exact absurd hcond.2 (by simp [hst.1, hst.2])
        · rfl
      have h2 := sumPend_mark_le i st r ts hst
      unfold markCreatorTx sumPend at h2
      simp only [List.map_map] at h2
      omega
    · simp only [hhd, cond_false] at hfind
      have h3 := ih hfind
      unfold markCreatorTx sumPend at h3 ⊢
      simp only [List.map_cons, List.sum_cons, List.map_map] at h3 ⊢
      simp only [hhd, if_neg, Bool.not_eq_true] at *
      omega

/-- Pending-transaction well-formedness survives marking by id with a
non-pending status. -/
theorem brandPend_mark (i st : String) (r : Option String) (txs : List BrandTx)
    (hst : st ≠ "pending")
    (h : ∀ t ∈ txs, t.status = "pending" → 0 ≤ t.amount ∧ 0 ≤ metaTokens t) :
    ∀ t ∈ markBrandTx i st r txs, t.status = "pending" → 0 ≤ t.amount ∧ 0 ≤ metaTokens t := by
  intro t ht hstat
  unfold markBrandTx at ht
  obtain ⟨u, hu, hut⟩ := List.mem_map.mp ht
  by_cases hui : (u.id == i) = true
  · simp only [hui, if_pos] at hut
    rw [← hut] at hstat
    exact absurd hstat hst
  · simp only [hui, if_neg, Bool.not_eq_true] at hut
    subst hut
    exact h u hu hstat

/-- Pending-transaction well-formedness survives completing by id. -/
theorem brandPend_complete (i : String) (nb : Int) (txs : List BrandTx)
    (h : ∀ t ∈ txs, t.status = "pending" → 0 ≤ t.amount ∧ 0 ≤ metaTokens t) :
    ∀ t ∈ completeBrandTx i nb txs, t.status = "pending" → 0 ≤ t.amount ∧ 0 ≤ metaTokens t := by
  intro t ht hstat
  unfold completeBrandTx at ht
  obtain ⟨u, hu, hut⟩ := List.mem_map.mp ht
  by_cases hui : (u.id == i) = true
  · simp only [hui, if_pos] at hut
    rw [← hut] at hstat
    simp at hstat
  · simp only [hui, if_neg, Bool.not_eq_true] at hut
    subst hut
    exact h u hu hstat

/-- Pending-transaction well-formedness survives appending a completed
transaction. -/
theorem brandPend_append (txs : List BrandTx) (tx : BrandTx) (hc : tx.status = "completed")
    (h : ∀ t ∈ txs, t.status = "pending" → 0 ≤ t.amount ∧ 0 ≤ metaTokens t) :
    ∀ t ∈ txs ++ [tx], t.status = "pending" → 0 ≤ t.amount ∧ 0 ≤ metaTokens t := by
  intro t ht hstat
  rcases List.mem_append.mp ht with hin | hin
  · exact h t hin hstat
  · simp only [List.mem_singleton] at hin
    subst hin
    rw [hc] at hstat
    simp at hstat

theorem inv_holdEscrow (a : Int) (cid : String) (s : Ledger) (h : LedgerInv s) :
    LedgerInv ((holdEscrow a cid s).2) := by
  obtain ⟨h1, h2, h3, h4, h5, h6, h7, h8, h9, h10, h11, h12, h13⟩ := h
  unfold holdEscrow
  split
  · exact ⟨h1, h2, h3, h4, h5, h6, h7, h8, h9, h10, h11, h12, h13⟩
  · split
    · exact ⟨h1, h2, h3, h4, h5, h6, h7, h8, h9, h10, h11, h12, h13⟩
    · rename_i hpos hbal
      refine ⟨h1, h2, h3, by dsimp; omega, by dsimp; omega, h6, h7, h8, h9, h10, h11, h12, ?_⟩
      exact brandPend_append _ _ rfl h13

theorem inv_releaseEscrow (a : Int) (cid aid : String) (s : Ledger) (h : LedgerInv s) :
    LedgerInv ((releaseEscrow a cid aid s).2) := by
  obtain ⟨h1, h2, h3, h4, h5, h6, h7, h8, h9, h10, h11, h12, h13⟩ := h
  unfold releaseEscrow
  split
  · exact ⟨h1, h2, h3, h4, h5, h6, h7, h8, h9, h10, h11, h12, h13⟩
  · split
    · exact ⟨h1, h2, h3, h4, h5, h6, h7, h8, h9, h10, h11, h12, h13⟩
    · rename_i hpos hhold
      refine ⟨h1, h2, h3, h4, by dsimp; omega, h6, by dsimp; omega, h8,
        by dsimp; omega, by dsimp; omega, h11, ?_, ?_⟩
      · dsimp
        rw [sumPend_append]
        have hz : sumPend
            [{ id := "earning_" ++ aid, transaction_type := "earning", amount := a,
               balance_after := some (s.creator.balance + a), reference_type := some "campaign",
               reference_id := some cid, bank_account_id := none,
               status := "completed", failure_reason := none }] = 0 := by
          unfold sumPend pendContribution
          simp
        rw [hz]
        omega
      · exact brandPend_append _ _ rfl h13

theorem inv_refundEscrow (a : Int) (cid : String) (s : Ledger) (h : LedgerInv s) :
    LedgerInv ((refundEscrow a cid s).2) := by
  obtain ⟨h1, h2, h3, h4, h5, h6, h7, h8, h9, h10, h11, h12, h13⟩ := h
  unfold refundEscrow
  split
  · exact ⟨h1, h2, h3, h4, h5, h6, h7, h8, h9, h10, h11, h12, h13⟩
  · split
    · exact ⟨h1, h2, h3, h4, h5, h6, h7, h8, h9, h10, h11, h12, h13⟩
    · rename_i hpos hhold
      refine ⟨h1, h2, h3, by dsimp; omega, by dsimp; omega, h6, h7, by dsimp; omega,
        h9, h10, h11, h12, ?_⟩
      exact brandPend_append _ _ rfl h13

/-- Facts delivered by a successful pending-transaction lookup. -/
theorem findPendingBrandTx_spec (txId orderId : String) (txs : List BrandTx) (tx : BrandTx)
    (h : findPendingBrandTx txId orderId txs = some tx) :
    tx ∈ txs ∧ tx.id = txId ∧ tx.status = "pending" := by
  unfold findPendingBrandTx at h
  have hmem := List.mem_of_find?_eq_some h
  have hp := List.find?_some h
  simp only [Bool.and_eq_true, beq_iff_eq] at hp
  exact ⟨hmem, hp.1.1, hp.2⟩

theorem inv_verifyEscrowDeposit (t o : String) (sv cf : Bool) (s : Ledger) (h : LedgerInv s) :
    LedgerInv ((verifyEscrowDeposit t o sv cf s).2) := by
  obtain ⟨h1, h2, h3, h4, h5, h6, h7, h8, h9, h10, h11, h12, h13⟩ := h
  unfold verifyEscrowDeposit
  split
  · exact ⟨h1, h2, h3, h4, h5, h6, h7, h8, h9, h10, h11, h12, h13⟩
  · rename_i tx heq
    obtain ⟨hmem, hid, hstat⟩ := findPendingBrandTx_spec t o s.brandTxs tx heq
    obtain ⟨hamt, htok⟩ := h13 tx hmem hstat
    split
    · exact ⟨h1, h2, h3, h4, h5, h6, h7, h8, h9, h10, h11, h12,
        brandPend_mark _ _ _ _ (by decide) h13⟩
    · split
      · exact ⟨h1, h2, h3, h4, h5, h6, h7, h8, h9, h10, h11, h12,
          brandPend_mark _ _ _ _ (by decide) h13⟩
      · refine ⟨h1, h2, h3, by dsimp; omega, h5, by dsimp; omega, h7, h8,
          h9, h10, h11, h12, brandPend_complete _ _ _ h13⟩

theorem inv_verifyRecharge (t o : String) (sv cf : Bool) (now : Nat) (s : Ledger)
    (h : LedgerInv s) : LedgerInv ((verifyRecharge t o sv cf now s).2) := by
  obtain ⟨h1, h2, h3, h4, h5, h6, h7, h8, h9, h10, h11, h12, h13⟩ := h
  unfold verifyRecharge
  split
  · exact ⟨h1, h2, h3, h4, h5, h6, h7, h8, h9, h10, h11, h12, h13⟩
  · rename_i tx heq
    split
    · exact ⟨h1, h2, h3, h4, h5, h6, h7, h8, h9, h10, h11, h12,
        brandPend_mark _ _ _ _ (by decide) h13⟩
    · split
      · dsimp only
        split
        · exact ⟨h1, h2, h3, h4, h5, h6, h7, h8, h9, h10, h11, h12, h13⟩
        · exact ⟨h1, h2, h3, h4, h5, h6, h7, h8, h9, h10, h11, h12,
            brandPend_mark _ _ _ _ (by decide) h13⟩
      · dsimp only
        split
        · exact ⟨h1, h2, h3, h4, h5, h6, h7, h8, h9, h10, h11, h12, h13⟩
        · rename_i htokpos
          split
          · refine ⟨by dsimp; omega, by dsimp; omega, h3, h4, h5, h6, h7, h8,
              h9, h10, h11, h12, brandPend_complete _ _ _ h13⟩
          · refine ⟨by dsimp; omega, by dsimp; omega, h3, h4, h5, h6, h7, h8,
              h9, h10, h11, h12, brandPend_complete _ _ _ h13⟩

theorem inv_handleWebhook (o : String) (sv cf : Bool) (now : Nat) (s : Ledger)
    (h : LedgerInv s) : LedgerInv ((handleWebhook o sv cf now s).2) := by
  obtain ⟨h1, h2, h3, h4, h5, h6, h7, h8, h9, h10, h11, h12, h13⟩ := h
  unfold handleWebhook
  split
  · exact ⟨h1, h2, h3, h4, h5, h6, h7, h8, h9, h10, h11, h12, h13⟩
  · split
    · exact ⟨h1, h2, h3, h4, h5, h6, h7, h8, h9, h10, h11, h12, h13⟩
    · rename_i tx heq
      have hmem := List.mem_of_find?_eq_some heq
      have hp := List.find?_some heq
      simp only [Bool.and_eq_true, beq_iff_eq] at hp
      obtain ⟨hamt, htok⟩ := h13 tx hmem hp.2
      split
      · exact ⟨h1, h2, h3, h4, h5, h6, h7, h8, h9, h10, h11, h12, h13⟩
      · refine ⟨by dsimp; omega, by dsimp; omega, h3, h4, h5, h6, h7, h8,
          h9, h10, h11, h12, brandPend_complete _ _ _ h13⟩

theorem inv_unlockCreator (c : String) (hp ce : Bool) (cost : Int) (s : Ledger)
    (h : LedgerInv s) (hc : 0 ≤ cost) : LedgerInv ((unlockCreator c hp ce cost s).2) := by
  obtain ⟨h1, h2, h3, h4, h5, h6, h7, h8, h9, h10, h11, h12, h13⟩ := h
  have hcost : 0 < effectiveCost cost := by
    unfold effectiveCost
    split
    · omega
    · omega
  unfold unlockCreator
  split
  · exact ⟨h1, h2, h3, h4, h5, h6, h7, h8, h9, h10, h11, h12, h13⟩
  · split
    · exact ⟨h1, h2, h3, h4, h5, h6, h7, h8, h9, h10, h11, h12, h13⟩
    · split
      · exact ⟨h1, h2, h3, h4, h5, h6, h7, h8, h9, h10, h11, h12, h13⟩
      · dsimp only
        split
        · exact ⟨h1, h2, h3, h4, h5, h6, h7, h8, h9, h10, h11, h12, h13⟩
        · rename_i hbal
          refine ⟨by dsimp; omega, h2, by dsimp; omega, h4, h5, h6, h7, h8,
            h9, h10, h11, h12, brandPend_append _ _ rfl h13⟩

theorem inv_requestWithdrawal (u : String) (a : Int) (acct txId : String) (s : Ledger)
    (h : LedgerInv s) (ha : 0 < a) : LedgerInv ((requestWithdrawal u a acct txId s).2) := by
  obtain ⟨h1, h2, h3, h4, h5, h6, h7, h8, h9, h10, h11, h12, h13⟩ := h
  unfold requestWithdrawal
  split
  · exact ⟨h1, h2, h3, h4, h5, h6, h7, h8, h9, h10, h11, h12, h13⟩
  · split
    · exact ⟨h1, h2, h3, h4, h5, h6, h7, h8, h9, h10, h11, h12, h13⟩
    · split
      · exact ⟨h1, h2, h3, h4, h5, h6, h7, h8, h9, h10, h11, h12, h13⟩
      · rename_i hbal
        refine ⟨h1, h2, h3, h4, h5, h6, h7, h8, by dsimp; omega, h10, h11, ?_, h13⟩
        dsimp
        rw [sumPend_append]
        have hone : sumPend
            [{ id := txId, transaction_type := "withdrawal", amount := -a,
               balance_after := none, reference_type := none, reference_id := none,
               bank_account_id := some acct, status := "pending",
               failure_reason := none }] = a := by
          unfold sumPend pendContribution
          simp [abs_of_pos ha]
        rw [hone]
        omega

theorem inv_processWithdrawal (txId : String) (suc : Bool) (r : Option String) (s : Ledger)
    (h : LedgerInv s) : LedgerInv ((processWithdrawal txId suc r s).2) := by
  obtain ⟨h1, h2, h3, h4, h5, h6, h7, h8, h9, h10, h11, h12, h13⟩ := h
  unfold processWithdrawal
  split
  · exact ⟨h1, h2, h3, h4, h5, h6, h7, h8, h9, h10, h11, h12, h13⟩
  · rename_i tx heq
    split
    · exact ⟨h1, h2, h3, h4, h5, h6, h7, h8, h9, h10, h11, h12, h13⟩
    · split
      · exact ⟨h1, h2, h3, h4, h5, h6, h7, h8, h9, h10, h11, h12, h13⟩
      · rename_i hty hst
        simp only [bne_iff_ne, ne_eq, not_not, Bool.not_eq_true, Bool.and_eq_false_iff,
          bne_eq_false_iff_eq] at hty hst
        have hcontrib : pendContribution tx = |tx.amount| := by
          unfold pendContribution
          rw [if_pos]
          exact ⟨hty, by rcases hst with h' | h' <;> simp [h']⟩
        have habs : 0 ≤ |tx.amount| := abs_nonneg _
        split
        · have hfound := sumPend_mark_found txId "completed" none s.creatorTxs tx heq
            (by constructor <;> decide)
          rw [hcontrib] at hfound
          refine ⟨h1, h2, h3, h4, h5, h6, h7, h8, h9, h10, by dsimp; omega, ?_, h13⟩
          dsimp
          omega
        · have hfound := sumPend_mark_found txId "failed" r s.creatorTxs tx heq
            (by constructor <;> decide)
          rw [hcontrib] at hfound
          refine ⟨h1, h2, h3, h4, h5, h6, h7, h8, by dsimp; omega, h10, h11, ?_, h13⟩
          dsimp
          omega

/-- Single-step invariant preservation for every engine operation with
validated (positive) request amounts. -/
theorem LedgerInv_step (op : Op) (s : Ledger) (h : LedgerInv s)
    (hpos : op.positiveAmt = true) : LedgerInv (op.step s) := by
  cases op with
  | hold a cid => exact inv_holdEscrow a cid s h
  | release a cid aid => exact inv_releaseEscrow a cid aid s h
  | refund a cid => exact inv_refundEscrow a cid s h
  | depositVerify t o sv cf => exact inv_verifyEscrowDeposit t o sv cf s h
  | rechargeVerify t o sv cf now => exact inv_verifyRecharge t o sv cf now s h
  | webhook o sv cf now => exact inv_handleWebhook o sv cf now s h
  | unlock c hp ce cost =>
    exact inv_unlockCreator c hp ce cost s h (by simpa [Op.positiveAmt] using hpos)
  | withdrawReq u a acc t =>
    exact inv_requestWithdrawal u a acc t s h (by simpa [Op.positiveAmt] using hpos)
  | withdrawProc t suc r => exact inv_processWithdrawal t suc r s h

/-- Invariant preservation over arbitrary operation sequences. -/
theorem LedgerInv_run (ops : List Op) (s : Ledger) (h : LedgerInv s)
    (hpos : ∀ op ∈ ops, op.positiveAmt = true) : LedgerInv (run ops s) := by
  induction ops generalizing s with
  | nil => exact h
  | cons op rest ih =>
    exact ih (op.step s) (LedgerInv_step op s h (hpos op (by simp)))
      (fun o ho => hpos o (by simp [ho]))

/-- The well-formedness invariant implies non-negativity of every
balance field. -/
theorem LedgerInv_nonneg (s : Ledger) (h : LedgerInv s) : NonNeg s := by
  obtain ⟨h1, h2, h3, h4, h5, h6, h7, h8, h9, h10, h11, h12, h13⟩ := h
  have := sumPend_nonneg s.creatorTxs
  exact ⟨h1, h2, h3, h4, h5, h6, h7, h8, h9, by omega, h10, h11⟩

/-- A concrete well-formed ledger state used by the concrete runs below:
brand with `escrow_balance = 1000`, `escrow_on_hold = 100`,
`token_balance = 100`; creator with `balance = 10000` and a verified
bank account `a1` owned by user `u1`. -/
def exBrand : BrandWallet :=
  { token_balance := 100, total_tokens_credited := 100, total_tokens_debited := 0,
    escrow_balance := 1000, escrow_on_hold := 100, total_escrow_deposited := 1100,
    total_escrow_released := 0, total_escrow_refunded := 0,
    current_package := some "OldPack", current_package_id := some "old1",
    package_activated_at := some 1, package_expires_at := some 2 }

def exCreator : CreatorWallet :=
  { balance := 10000, pending_balance := 0, total_earnings := 10000, total_withdrawals := 0 }

def exAcct : BankAcct := { id := "a1", user_id := "u1", verification_status := "verified" }

def exLedger : Ledger :=
  { brand := exBrand, creator := exCreator, brandTxs := [], creatorTxs := [],
    unlocked := [], bankAccounts := [exAcct] }

/-- A pending recharge transaction for a subscription package of 50
tokens, as `initiateRecharge` would create it. -/
def exSubTx : BrandTx :=
  { id := "t1", transaction_type := "token_credit", amount := 4999,
    currency_type := "token", balance_after := 100, reference_type := "package",
    reference_id := some "p1", payment_gateway_id := some "o1", status := "pending",
    failure_reason := none,
    meta := some { tokens_included := 50, package_type := "subscription",
                   package_name := "Pro", package_id := "p1", validity_days := some 30 } }

def exSubLedger : Ledger := { exLedger with brandTxs := [exSubTx] }

/-- A pending recharge transaction for a topup package. -/
def exTopupTx : BrandTx :=
  { exSubTx with
    id := "t2", payment_gateway_id := some "o2",
    meta := some { tokens_included := 25, package_type := "topup",
                   package_name := "Topup500", package_id := "p2", validity_days := none } }

def exTopupLedger : Ledger := { exLedger with brandTxs := [exTopupTx] }

/-- A pending recharge transaction whose metadata token count is zero
(a package with `tokens_included = 0`, or unparsable metadata). -/
def exZeroTx : BrandTx :=
  { exSubTx with
    id := "t3", payment_gateway_id := some "o3",
    meta := some { tokens_included := 0, package_type := "subscription",
                   package_name := "Zero", package_id := "p3", validity_days := some 30 } }

def exZeroLedger : Ledger := { exLedger with brandTxs := [exZeroTx] }

/-- C1 (amended to positive amounts, which `releaseEscrow` enforces
before any write): for every state, every positive amount bounded by the
brand's `escrow_on_hold`, `releaseEscrow` succeeds and — in its one
atomic storage transaction — decreases `escrow_on_hold` by the amount,
increments `total_escrow_released` by it, credits the creator's
`balance` and `total_earnings` by it, and appends exactly one brand-side
and one creator-side transaction row, both carrying that amount. -/
theorem releaseEscrow_conservation (s : Ledger) (a : Int) (cid aid : String)
    (hpos : 0 < a) (hheld : a ≤ s.brand.escrow_on_hold) :
    (releaseEscrow a cid aid s).1 = Except.ok () ∧
    (releaseEscrow a cid aid s).2.brand.escrow_on_hold = s.brand.escrow_on_hold - a ∧
    (releaseEscrow a cid aid s).2.brand.total_escrow_released
      = s.brand.total_escrow_released + a ∧
    (releaseEscrow a cid aid s).2.creator.balance = s.creator.balance + a ∧
    (releaseEscrow a cid aid s).2.creator.total_earnings = s.creator.total_earnings + a ∧
    (releaseEscrow a cid aid s).2.brandTxs = s.brandTxs ++
      [{ id := "release_" ++ aid, transaction_type := "escrow_release", amount := a,
         currency_type := "escrow", balance_after := s.brand.escrow_balance,
         reference_type := "application", reference_id := some aid,
         payment_gateway_id := none, status := "completed", failure_reason := none,
         meta := none }] ∧
    (releaseEscrow a cid aid s).2.creatorTxs = s.creatorTxs ++
      [{ id := "earning_" ++ aid, transaction_type := "earning", amount := a,
         balance_after := some (s.creator.balance + a), reference_type := some "campaign",
         reference_id := some cid, bank_account_id := none, status := "completed",
         failure_reason := none }] := by
  unfold releaseEscrow
  rw [if_neg (by omega), if_neg (by omega)]
  exact ⟨rfl, rfl, rfl, rfl, rfl, rfl, rfl⟩

theorem releaseEscrow_conservation_witness :
    (0:Int) < 100 ∧ (100:Int) ≤ exLedger.brand.escrow_on_hold ∧
    (releaseEscrow 100 "c1" "ap1" exLedger).1 = Except.ok () ∧
    (releaseEscrow 100 "c1" "ap1" exLedger).2.creator.balance
      = exLedger.creator.balance + 100 :=
  ⟨by decide, by decide,
    (releaseEscrow_conservation exLedger 100 "c1" "ap1" (by decide) (by decide)).1,
    (releaseEscrow_conservation exLedger 100 "c1" "ap1" (by decide) (by decide)).2.2.2.1⟩

/-- C1 counterexample: at amount `0` the claim's precondition
`escrow_on_hold ≥ amount` holds, yet `releaseEscrow` throws the
positivity error and creates no transaction rows, so release does not
produce the claimed effects at this input. -/
theorem releaseEscrow_zero_amount_counterexample :
    (0:Int) ≤ exLedger.brand.escrow_on_hold ∧
    releaseEscrow 0 "c1" "ap1" exLedger
      = (Except.error "Amount must be greater than 0", exLedger) :=
  ⟨by decide, rfl⟩

/-- C2 (amended to operations with validated positive request amounts):
from any well-formed state, every sequence of engine operations
preserves non-negativity of every balance field, and in particular a
`holdEscrow` call whose amount exceeds `escrow_balance` fails with the
insufficient-escrow error and leaves the whole state — in particular
`escrow_balance` and `escrow_on_hold` — unchanged. The restriction to
positive amounts is forced: `requestWithdrawal` performs no amount
validation and accepts negative amounts (see the counterexample). -/
theorem nonneg_under_engine_ops :
    (∀ (ops : List Op) (s0 : Ledger), (∀ op ∈ ops, op.positiveAmt = true) →
      LedgerInv s0 → NonNeg (run ops s0)) ∧
    (∀ (s : Ledger) (amount : Int) (cid : String), 0 < amount →
      s.brand.escrow_balance < amount →
      holdEscrow amount cid s = (Except.error "Insufficient escrow balance", s)) := by
  constructor
  · intro ops s0 hpos h
    exact LedgerInv_nonneg _ (LedgerInv_run ops s0 h hpos)
  · intro s amount cid hpos hlt
    unfold holdEscrow
    rw [if_neg (by omega), if_pos hlt]

theorem nonneg_under_engine_ops_witness :
    (∀ op ∈ [Op.hold 5000 "c1", Op.withdrawReq "u1" 5000 "a1" "w1"],
      op.positiveAmt = true) ∧ LedgerInv exLedger ∧
    NonNeg (run [Op.hold 5000 "c1", Op.withdrawReq "u1" 5000 "a1" "w1"] exLedger) :=
  ⟨by decide, by decide,
    nonneg_under_engine_ops.1 [Op.hold 5000 "c1", Op.withdrawReq "u1" 5000 "a1" "w1"]
      exLedger (by decide) (by decide)⟩

/-- C2 counterexample: `requestWithdrawal` accepts a negative amount
with no failure — on a well-formed state with `pending_balance = 0` it
succeeds and drives `pending_balance` to `-100 < 0`, so non-negativity
does not hold under every sequence of engine operations. -/
theorem requestWithdrawal_negative_amount_counterexample :
    NonNeg exLedger ∧
    (requestWithdrawal "u1" (-100) "a1" "w1" exLedger).1 = Except.ok () ∧
    (requestWithdrawal "u1" (-100) "a1" "w1" exLedger).2.creator.pending_balance = -100 := by
  refine ⟨by decide, rfl, rfl⟩

/-- After completing a transaction id, no pending transaction with that
id can be found again: the `status = pending` filter excludes it. -/
theorem findPendingBrandTx_complete_none (i o : String) (nb : Int) (txs : List BrandTx) :
    findPendingBrandTx i o (completeBrandTx i nb txs) = none := by
  unfold findPendingBrandTx completeBrandTx
  apply List.find?_eq_none.mpr
  intro t ht
  obtain ⟨u, hu, hut⟩ := List.mem_map.mp ht
  by_cases hui : (u.id == i) = true
  · rw [if_pos hui] at hut
    subst hut
    simp
  · rw [if_neg hui] at hut
    subst hut
    simp only [Bool.and_eq_true, beq_iff_eq, not_and]
    intro h1 h2
    exact absurd (beq_iff_eq.mpr h1.1) hui

/-- A pending escrow-deposit transaction as `initiateEscrowDeposit`
creates it (shortfall amount 500 against order `o4`). -/
def exDepTx : BrandTx :=
  { id := "t4", transaction_type := "escrow_deposit", amount := 500,
    currency_type := "escrow", balance_after := 1000, reference_type := "direct_deposit",
    reference_id := none, payment_gateway_id := some "o4", status := "pending",
    failure_reason := none, meta := none }

def exDepLedger : Ledger := { exLedger with brandTxs := [exDepTx] }

/-- C3: verify is idempotent per transaction id on both paths. A first
`verifyRecharge` call that finds the pending transaction, authenticates,
and carries a positive token snapshot credits `token_balance` exactly
once and completes the transaction; and a first `verifyEscrowDeposit`
call that finds the pending transaction and authenticates credits
`escrow_balance`/`total_escrow_deposited` exactly once and completes the
transaction. In each case a second call with the same
`(transactionId, orderRef)` — whatever its signature or storage outcome —
finds no pending transaction and fails with the
already-processed/not-found error, changing nothing. -/
theorem verify_idempotent :
    (∀ (s : Ledger) (i o : String) (tx : BrandTx) (now now2 : Nat) (sv2 cf2 : Bool),
      findPendingBrandTx i o s.brandTxs = some tx → 0 < metaTokens tx →
      (verifyRecharge i o true false now s).1 = Except.ok () ∧
      (verifyRecharge i o true false now s).2.brand.token_balance
        = s.brand.token_balance + metaTokens tx ∧
      verifyRecharge i o sv2 cf2 now2 (verifyRecharge i o true false now s).2
        = (Except.error "Transaction not found or already processed",
           (verifyRecharge i o true false now s).2)) ∧
    (∀ (s : Ledger) (i o : String) (tx : BrandTx) (sv2 cf2 : Bool),
      findPendingBrandTx i o s.brandTxs = some tx →
      (verifyEscrowDeposit i o true false s).1 = Except.ok () ∧
      (verifyEscrowDeposit i o true false s).2.brand.escrow_balance
        = s.brand.escrow_balance + tx.amount ∧
      (verifyEscrowDeposit i o true false s).2.brand.total_escrow_deposited
        = s.brand.total_escrow_deposited + tx.amount ∧
      verifyEscrowDeposit i o sv2 cf2 (verifyEscrowDeposit i o true false s).2
        = (Except.error "Transaction not found or already processed",
           (verifyEscrowDeposit i o true false s).2)) := by
  constructor
  · intro s i o tx now now2 sv2 cf2 hfind htok
    have hstate : (verifyRecharge i o true false now s).1 = Except.ok () ∧
        (verifyRecharge i o true false now s).2.brand.token_balance
          = s.brand.token_balance + metaTokens tx ∧
        (verifyRecharge i o true false now s).2.brandTxs
          = completeBrandTx i (s.brand.token_balance + metaTokens tx) s.brandTxs := by
      unfold verifyRecharge
      simp only [hfind]
      rw [if_neg (by simp)]
      rw [if_neg (by omega)]
      rw [if_neg (by simp)]
      split
      · exact ⟨rfl, rfl, rfl⟩
      · exact ⟨rfl, rfl, rfl⟩
    obtain ⟨hOk, hBal, hTxs⟩ := hstate
    refine ⟨hOk, hBal, ?_⟩
    have hnone : findPendingBrandTx i o (verifyRecharge i o true false now s).2.brandTxs
        = none := by
      rw [hTxs]
      exact findPendingBrandTx_complete_none i o _ s.brandTxs
    generalize hgen : (verifyRecharge i o true false now s).2 = s1 at hnone ⊢
    unfold verifyRecharge
    rw [hnone]
  · intro s i o tx sv2 cf2 hfind
    have hstate : (verifyEscrowDeposit i o true false s).1 = Except.ok () ∧
        (verifyEscrowDeposit i o true false s).2.brand.escrow_balance
          = s.brand.escrow_balance + tx.amount ∧
        (verifyEscrowDeposit i o true false s).2.brand.total_escrow_deposited
          = s.brand.total_escrow_deposited + tx.amount ∧
        (verifyEscrowDeposit i o true false s).2.brandTxs
          = completeBrandTx i (s.brand.escrow_balance + tx.amount) s.brandTxs := by
      unfold verifyEscrowDeposit
      simp only [hfind]
      rw [if_neg (by simp)]
      rw [if_neg (by simp)]
      exact ⟨rfl, rfl, rfl, rfl⟩
    obtain ⟨hOk, hBal, hDep, hTxs⟩ := hstate
    refine ⟨hOk, hBal, hDep, ?_⟩
    have hnone : findPendingBrandTx i o (verifyEscrowDeposit i o true false s).2.brandTxs
        = none := by
      rw [hTxs]
      exact findPendingBrandTx_complete_none i o _ s.brandTxs
    generalize hgen : (verifyEscrowDeposit i o true false s).2 = s1 at hnone ⊢
    unfold verifyEscrowDeposit
    rw [hnone]

theorem verify_idempotent_witness :
    findPendingBrandTx "t1" "o1" exSubLedger.brandTxs = some exSubTx ∧
    (0:Int) < metaTokens exSubTx ∧
    findPendingBrandTx "t4" "o4" exDepLedger.brandTxs = some exDepTx ∧
    (verifyRecharge "t1" "o1" true false 7 exSubLedger).2.brand.token_balance
      = exSubLedger.brand.token_balance + metaTokens exSubTx ∧
    verifyRecharge "t1" "o1" true false 8 (verifyRecharge "t1" "o1" true false 7 exSubLedger).2
      = (Except.error "Transaction not found or already processed",
         (verifyRecharge "t1" "o1" true false 7 exSubLedger).2) ∧
    (verifyEscrowDeposit "t4" "o4" true false exDepLedger).2.brand.escrow_balance
      = exDepLedger.brand.escrow_balance + exDepTx.amount ∧
    verifyEscrowDeposit "t4" "o4" true false
        (verifyEscrowDeposit "t4" "o4" true false exDepLedger).2
      = (Except.error "Transaction not found or already processed",
         (verifyEscrowDeposit "t4" "o4" true false exDepLedger).2) :=
  ⟨by decide, by decide, by decide,
    (verify_idempotent.1 exSubLedger "t1" "o1" exSubTx 7 8 true false
      (by decide) (by decide)).2.1,
    (verify_idempotent.1 exSubLedger "t1" "o1" exSubTx 7 8 true false
      (by decide) (by decide)).2.2,
    (verify_idempotent.2 exDepLedger "t4" "o4" exDepTx true false (by decide)).2.1,
    (verify_idempotent.2 exDepLedger "t4" "o4" exDepTx true false (by decide)).2.2.2⟩

/-- One hold-then-refund cycle on the same campaign. -/
def holdRefundCycle (a : Int) (cid : String) (s : Ledger) : Ledger :=
  (refundEscrow a cid (holdEscrow a cid s).2).2

/-- `n` repeated hold/refund cycles. -/
def holdRefundCycles (a : Int) (cid : String) : Nat → Ledger → Ledger
  | 0, s => s
  | n + 1, s => holdRefundCycles a cid n (holdRefundCycle a cid s)

theorem holdEscrow_success_fields (s : Ledger) (a : Int) (cid : String)
    (ha : 0 < a) (hb : a ≤ s.brand.escrow_balance) :
    (holdEscrow a cid s).2.brand.escrow_balance = s.brand.escrow_balance - a ∧
    (holdEscrow a cid s).2.brand.escrow_on_hold = s.brand.escrow_on_hold + a := by
  unfold holdEscrow
  rw [if_neg (by omega), if_neg (by omega)]
  exact ⟨rfl, rfl⟩

theorem refundEscrow_success_fields (s : Ledger) (a : Int) (cid : String)
    (ha : 0 < a) (hoh : a ≤ s.brand.escrow_on_hold) :
    (refundEscrow a cid s).2.brand.escrow_balance = s.brand.escrow_balance + a ∧
    (refundEscrow a cid s).2.brand.escrow_on_hold = s.brand.escrow_on_hold - a := by
  unfold refundEscrow
  rw [if_neg (by omega), if_neg (by omega)]
  exact ⟨rfl, rfl⟩

theorem holdRefundCycle_restores (s : Ledger) (a : Int) (cid : String)
    (hb : a ≤ s.brand.escrow_balance) (hoh : 0 ≤ s.brand.escrow_on_hold) :
    (holdRefundCycle a cid s).brand.escrow_balance = s.brand.escrow_balance ∧
    (holdRefundCycle a cid s).brand.escrow_on_hold = s.brand.escrow_on_hold := by
  by_cases ha : a ≤ 0
  · have h1 : (holdEscrow a cid s).2 = s := by
      unfold holdEscrow
      rw [if_pos ha]
    have h2 : (refundEscrow a cid s).2 = s := by
      unfold refundEscrow
      rw [if_pos ha]
    unfold holdRefundCycle
    rw [h1, h2]
    exact ⟨rfl, rfl⟩
  · obtain ⟨hb1, ho1⟩ := holdEscrow_success_fields s a cid (by omega) hb
    obtain ⟨hb2, ho2⟩ := refundEscrow_success_fields (holdEscrow a cid s).2 a cid (by omega)
      (by rw [ho1]; omega)
    unfold holdRefundCycle
    constructor
    · rw [hb2, hb1]
      omega
    · rw [ho2, ho1]
      omega

theorem holdRefundCycles_restore (a : Int) (cid : String) (n : Nat) (s : Ledger)
    (hb : a ≤ s.brand.escrow_balance) (hoh : 0 ≤ s.brand.escrow_on_hold) :
    (holdRefundCycles a cid n s).brand.escrow_balance = s.brand.escrow_balance ∧
    (holdRefundCycles a cid n s).brand.escrow_on_hold = s.brand.escrow_on_hold := by
  induction n generalizing s with
  | zero => exact ⟨rfl, rfl⟩
  | succ m ih =>
    obtain ⟨he, ho⟩ := holdRefundCycle_restores s a cid hb hoh
    obtain ⟨he2, ho2⟩ := ih (holdRefundCycle a cid s) (by omega) (by omega)
    exact ⟨by rw [holdRefundCycles, he2, he], by rw [holdRefundCycles, ho2, ho]⟩

/-- C4: on a well-formed brand wallet (non-negative `escrow_on_hold`,
the data model's standing invariant) with `escrow_balance ≥ amount`,
`holdEscrow` followed by `refundEscrow` on the same campaign restores
`escrow_balance` and `escrow_on_hold` exactly, and any number of
repeated hold/refund cycles produces no drift in either field. -/
theorem hold_refund_roundtrip (s : Ledger) (a : Int) (cid : String)
    (hb : a ≤ s.brand.escrow_balance) (hoh : 0 ≤ s.brand.escrow_on_hold) :
    ((holdRefundCycle a cid s).brand.escrow_balance = s.brand.escrow_balance ∧
     (holdRefundCycle a cid s).brand.escrow_on_hold = s.brand.escrow_on_hold) ∧
    ∀ n : Nat,
      (holdRefundCycles a cid n s).brand.escrow_balance = s.brand.escrow_balance ∧
      (holdRefundCycles a cid n s).brand.escrow_on_hold = s.brand.escrow_on_hold :=
  ⟨holdRefundCycle_restores s a cid hb hoh,
   fun n => holdRefundCycles_restore a cid n s hb hoh⟩

theorem hold_refund_roundtrip_witness :
    (300:Int) ≤ exLedger.brand.escrow_balance ∧
    (0:Int) ≤ exLedger.brand.escrow_on_hold ∧
    (holdRefundCycle 300 "c9" exLedger).brand.escrow_balance
      = exLedger.brand.escrow_balance ∧
    (holdRefundCycles 300 "c9" 4 exLedger).brand.escrow_on_hold
      = exLedger.brand.escrow_on_hold :=
  ⟨by decide, by decide,
    (hold_refund_roundtrip exLedger 300 "c9" (by decide) (by decide)).1.1,
    ((hold_refund_roundtrip exLedger 300 "c9" (by decide) (by decide)).2 4).2⟩

/-- C5 (amended): unlocking a not-yet-unlocked creator charges the
report token cost exactly once and appends one debit transaction; a
second `unlockCreator` call for the same pair fails with the
already-unlocked error and leaves the state unchanged — in particular no
new debit transaction and no token charge. (The source throws on
re-unlock; it does not return a no-op success.) -/
theorem unlockCreator_no_double_charge (s : Ledger) (c : String) (cost : Int)
    (hnew : s.unlocked.contains c = false)
    (hbal : effectiveCost cost ≤ s.brand.token_balance) :
    (unlockCreator c true true cost s).1 = Except.ok () ∧
    (unlockCreator c true true cost s).2.brand.token_balance
      = s.brand.token_balance - effectiveCost cost ∧
    (unlockCreator c true true cost s).2.brandTxs.length = s.brandTxs.length + 1 ∧
    unlockCreator c true true cost (unlockCreator c true true cost s).2
      = (Except.error "Creator profile is already unlocked",
         (unlockCreator c true true cost s).2) := by
  have hstep : (unlockCreator c true true cost s).1 = Except.ok () ∧
      (unlockCreator c true true cost s).2.brand.token_balance
        = s.brand.token_balance - effectiveCost cost ∧
      (unlockCreator c true true cost s).2.brandTxs.length = s.brandTxs.length + 1 ∧
      (unlockCreator c true true cost s).2.unlocked = s.unlocked ++ [c] := by
    unfold unlockCreator
    rw [if_neg (by simp)]
    rw [if_neg (by rw [hnew]; simp)]
    rw [if_neg (by simp)]
    rw [if_neg (by omega)]
    refine ⟨rfl, rfl, by simp, rfl⟩
  obtain ⟨hOk, hBal, hLen, hUnl⟩ := hstep
  refine ⟨hOk, hBal, hLen, ?_⟩
  have hcont : (unlockCreator c true true cost s).2.unlocked.contains c = true := by
    rw [hUnl]
    simp
  generalize hgen : (unlockCreator c true true cost s).2 = s1 at hcont ⊢
  unfold unlockCreator
  rw [if_neg (by simp), if_pos hcont]

theorem unlockCreator_no_double_charge_witness :
    exLedger.unlocked.contains "cr1" = false ∧
    effectiveCost 5 ≤ exLedger.brand.token_balance ∧
    (unlockCreator "cr1" true true 5 exLedger).1 = Except.ok () ∧
    unlockCreator "cr1" true true 5 (unlockCreator "cr1" true true 5 exLedger).2
      = (Except.error "Creator profile is already unlocked",
         (unlockCreator "cr1" true true 5 exLedger).2) :=
  ⟨by decide, by decide,
    (unlockCreator_no_double_charge exLedger "cr1" 5 (by decide) (by decide)).1,
    (unlockCreator_no_double_charge exLedger "cr1" 5 (by decide) (by decide)).2.2.2⟩

/-- C5 counterexample: the second unlock of the same pair does not
return success — it throws the already-unlocked error (while the first
call succeeded), so re-unlocking is a rejected call, not a no-op
success. -/
theorem unlockCreator_reunlock_errors_counterexample :
    (unlockCreator "cr1" true true 5 exLedger).1 = Except.ok () ∧
    (unlockCreator "cr1" true true 5 (unlockCreator "cr1" true true 5 exLedger).2).1
      = Except.error "Creator profile is already unlocked" :=
  ⟨rfl, rfl⟩

/-- C6 (amended): `requestWithdrawal` rejects when the bank account is
not found for `(bankAccountId, creatorId)` (covering not-owned), rejects
when the account is unverified, rejects when `balance < amount`, and
otherwise reserves the funds (`balance` down, `pending_balance` up by
the amount) and appends a pending withdrawal transaction. The service
performs no minimum-withdrawal check: the route layer declares a
minimum-amount validator but never enforces it, and no such check exists
in `requestWithdrawal` (see the counterexample). -/
theorem requestWithdrawal_checks (s : Ledger) (u : String) (a : Int) (acc txid : String) :
    (s.bankAccounts.find? (fun x => x.id == acc && x.user_id == u) = none →
      requestWithdrawal u a acc txid s = (Except.error "Bank account not found", s)) ∧
    (∀ acct, s.bankAccounts.find? (fun x => x.id == acc && x.user_id == u) = some acct →
      acct.verification_status ≠ "verified" →
      requestWithdrawal u a acc txid s
        = (Except.error "Bank account must be verified for withdrawals", s)) ∧
    (∀ acct, s.bankAccounts.find? (fun x => x.id == acc && x.user_id == u) = some acct →
      acct.verification_status = "verified" → s.creator.balance < a →
      requestWithdrawal u a acc txid s = (Except.error "Insufficient balance", s)) ∧
    (∀ acct, s.bankAccounts.find? (fun x => x.id == acc && x.user_id == u) = some acct →
      acct.verification_status = "verified" → a ≤ s.creator.balance →
      (requestWithdrawal u a acc txid s).1 = Except.ok () ∧
      (requestWithdrawal u a acc txid s).2.creator.balance = s.creator.balance - a ∧
      (requestWithdrawal u a acc txid s).2.creator.pending_balance
        = s.creator.pending_balance + a ∧
      (requestWithdrawal u a acc txid s).2.creatorTxs = s.creatorTxs ++
        [{ id := txid, transaction_type := "withdrawal", amount := -a,
           balance_after := none, reference_type := none, reference_id := none,
           bank_account_id := some acc, status := "pending", failure_reason := none }]) := by
  refine ⟨?_, ?_, ?_, ?_⟩
  · intro hnone
    unfold requestWithdrawal
    rw [hnone]
  · intro acct hsome hunv
    unfold requestWithdrawal
    simp only [hsome]
    rw [if_pos (bne_iff_ne.mpr hunv)]
  · intro acct hsome hver hlt
    unfold requestWithdrawal
    simp only [hsome]
    rw [if_neg (by simp [hver])]
    rw [if_pos hlt]
  · intro acct hsome hver hle
    unfold requestWithdrawal
    simp only [hsome]
    rw [if_neg (by simp [hver])]
    rw [if_neg (by omega)]
    exact ⟨rfl, rfl, rfl, rfl⟩

theorem requestWithdrawal_checks_witness :
    exLedger.bankAccounts.find? (fun x => x.id == "a1" && x.user_id == "u1")
      = some exAcct ∧
    exAcct.verification_status = "verified" ∧ (5000:Int) ≤ exLedger.creator.balance ∧
    (requestWithdrawal "u1" 5000 "a1" "w1" exLedger).1 = Except.ok () ∧
    (requestWithdrawal "u1" 5000 "a1" "w1" exLedger).2.creator.balance
      = exLedger.creator.balance - 5000 :=
  ⟨by decide, by decide, by decide,
    ((requestWithdrawal_checks exLedger "u1" 5000 "a1" "w1").2.2.2 exAcct
      (by decide) (by decide) (by decide)).1,
    ((requestWithdrawal_checks exLedger "u1" 5000 "a1" "w1").2.2.2 exAcct
      (by decide) (by decide) (by decide)).2.1⟩

/-- C6 counterexample: an amount of 50 — below the declared minimum
withdrawal of 100 — on a verified, owned account with sufficient balance
is not rejected: the request succeeds and reserves the funds, because
neither the service nor the route enforces the minimum. -/
theorem requestWithdrawal_no_minimum_counterexample :
    (50:Int) < 100 ∧
    (requestWithdrawal "u1" 50 "a1" "w1" exLedger).1 = Except.ok () ∧
    (requestWithdrawal "u1" 50 "a1" "w1" exLedger).2.creator.balance = 9950 ∧
    (requestWithdrawal "u1" 50 "a1" "w1" exLedger).2.creator.pending_balance = 50 :=
  ⟨by decide, rfl, rfl, rfl⟩

/-- A withdrawal transaction and state as left by `requestWithdrawal`
for amount 5000 against `exLedger` (used as an explicit mid-scenario
state). -/
def exWTx : CreatorTx :=
  { id := "w1", transaction_type := "withdrawal", amount := -5000,
    balance_after := none, reference_type := none, reference_id := none,
    bank_account_id := some "a1", status := "pending", failure_reason := none }

def exWLedger : Ledger :=
  { exLedger with
    creator := { balance := 5000, pending_balance := 5000,
                 total_earnings := 10000, total_withdrawals := 0 },
    creatorTxs := [exWTx] }

/-- C7: `processWithdrawal` resolves a reserved withdrawal to exactly
one of paid-out (`success = true`: `pending_balance` down,
`total_withdrawals` up, transaction `completed`, spendable balance
untouched) or returned-to-spendable (`success = false`: `balance`
re-credited, `pending_balance` down, transaction `failed`); and in the
concrete reversal scenario a creator with `balance = 10000` who requests
5000 and is processed with `success = false` ends at `balance = 10000`,
`pending_balance = 0`, with the transaction marked failed. -/
theorem processWithdrawal_settlement :
    (∀ (s : Ledger) (txid : String) (tx : CreatorTx) (reason : Option String),
      s.creatorTxs.find? (fun x => x.id == txid) = some tx →
      tx.transaction_type = "withdrawal" → tx.status = "pending" →
      ((processWithdrawal txid true none s).1 = Except.ok () ∧
       (processWithdrawal txid true none s).2.creator.balance = s.creator.balance ∧
       (processWithdrawal txid true none s).2.creator.pending_balance
         = s.creator.pending_balance - |tx.amount| ∧
       (processWithdrawal txid true none s).2.creator.total_withdrawals
         = s.creator.total_withdrawals + |tx.amount| ∧
       (processWithdrawal txid true none s).2.creatorTxs
         = markCreatorTx txid "completed" none s.creatorTxs) ∧
      ((processWithdrawal txid false reason s).1 = Except.ok () ∧
       (processWithdrawal txid false reason s).2.creator.balance
         = s.creator.balance + |tx.amount| ∧
       (processWithdrawal txid false reason s).2.creator.pending_balance
         = s.creator.pending_balance - |tx.amount| ∧
       (processWithdrawal txid false reason s).2.creatorTxs
         = markCreatorTx txid "failed" reason s.creatorTxs)) ∧
    ((requestWithdrawal "u1" 5000 "a1" "w1" exLedger).2.creator.balance = 5000 ∧
     (requestWithdrawal "u1" 5000 "a1" "w1" exLedger).2.creator.pending_balance = 5000 ∧
     (processWithdrawal "w1" false (some "payout failed")
        (requestWithdrawal "u1" 5000 "a1" "w1" exLedger).2).2.creator.balance = 10000 ∧
     (processWithdrawal "w1" false (some "payout failed")
        (requestWithdrawal "u1" 5000 "a1" "w1" exLedger).2).2.creator.pending_balance = 0 ∧
     (processWithdrawal "w1" false (some "payout failed")
        (requestWithdrawal "u1" 5000 "a1" "w1" exLedger).2).2.creatorTxs.map
          (fun t => t.status) = ["failed"]) := by
  constructor
  · intro s txid tx reason hfind hty hstat
    constructor
    · unfold processWithdrawal
      simp only [hfind]
      rw [if_neg (by simp [hty])]
      rw [if_neg (by simp [hstat])]
      exact ⟨rfl, rfl, rfl, rfl, rfl⟩
    · unfold processWithdrawal
      simp only [hfind]
      rw [if_neg (by simp [hty])]
      rw [if_neg (by simp [hstat])]
      exact ⟨rfl, rfl, rfl, rfl⟩
  · exact ⟨rfl, rfl, rfl, rfl, rfl⟩

theorem processWithdrawal_settlement_witness :
    exWLedger.creatorTxs.find? (fun x => x.id == "w1") = some exWTx ∧
    exWTx.transaction_type = "withdrawal" ∧ exWTx.status = "pending" ∧
    (processWithdrawal "w1" false (some "bank rejected") exWLedger).2.creator.balance
      = exWLedger.creator.balance + |exWTx.amount| ∧
    (processWithdrawal "w1" true none exWLedger).2.creator.pending_balance
      = exWLedger.creator.pending_balance - |exWTx.amount| :=
  ⟨by decide, by decide, by decide,
    ((processWithdrawal_settlement.1 exWLedger "w1" exWTx (some "bank rejected")
      (by decide) (by decide) (by decide)).2).2.1,
    ((processWithdrawal_settlement.1 exWLedger "w1" exWTx (some "bank rejected")
      (by decide) (by decide) (by decide)).1).2.2.1⟩

/-- C8: the frame condition holds on the frontend verify path —
crediting the topup package via `verifyRecharge` adds tokens and leaves
`current_package`, `package_activated_at` and `package_expires_at`
untouched — but the webhook path violates it: `handleWebhook` runs a
different credit block that unconditionally overwrites `current_package`
and `package_activated_at` with the metadata package name and the
current time, even for a topup package. -/
theorem handleWebhook_topup_overwrites_package :
    ((verifyRecharge "t2" "o2" true false 99 exTopupLedger).1 = Except.ok () ∧
     (verifyRecharge "t2" "o2" true false 99 exTopupLedger).2.brand.current_package
       = exTopupLedger.brand.current_package ∧
     (verifyRecharge "t2" "o2" true false 99 exTopupLedger).2.brand.package_activated_at
       = exTopupLedger.brand.package_activated_at ∧
     (verifyRecharge "t2" "o2" true false 99 exTopupLedger).2.brand.package_expires_at
       = exTopupLedger.brand.package_expires_at ∧
     (verifyRecharge "t2" "o2" true false 99 exTopupLedger).2.brand.token_balance
       = exTopupLedger.brand.token_balance + 25) ∧
    ((handleWebhook "o2" true false 99 exTopupLedger).1 = Except.ok () ∧
     exTopupLedger.brand.current_package = some "OldPack" ∧
     (handleWebhook "o2" true false 99 exTopupLedger).2.brand.current_package
       = some "Topup500" ∧
     exTopupLedger.brand.package_activated_at = some 1 ∧
     (handleWebhook "o2" true false 99 exTopupLedger).2.brand.package_activated_at
       = some 99) :=
  ⟨⟨rfl, rfl, rfl, rfl, by decide⟩, rfl, rfl, rfl, rfl, rfl⟩

/-- Every transaction carrying the marked id ends in the marked
status. -/
theorem markBrandTx_all (i st : String) (r : Option String) (txs : List BrandTx) :
    ∀ t ∈ markBrandTx i st r txs, t.id = i → t.status = st := by
  intro t ht hid
  unfold markBrandTx at ht
  obtain ⟨u, hu, hut⟩ := List.mem_map.mp ht
  by_cases hui : (u.id == i) = true
  · rw [if_pos hui] at hut
    rw [← hut]
  · rw [if_neg hui] at hut
    subst hut
    exact absurd (beq_iff_eq.mpr hid) hui

/-- C9 (amended): when `verifyRecharge` finds the pending transaction
and its metadata token amount is positive, every error return — a failed
signature check, or any storage failure inside the credit block — leaves
the transaction durably marked `failed` (never `pending`) and the token
balance unchanged. The amendment excludes the invalid-token-amount
validation error thrown between authentication and the credit block,
which returns with no write at all and leaves the transaction pending
(see the counterexample). -/
theorem verifyRecharge_error_marks_failed (s : Ledger) (i o : String) (sv cf : Bool)
    (now : Nat) (tx : BrandTx) (msg : String)
    (hfind : findPendingBrandTx i o s.brandTxs = some tx)
    (htok : 0 < metaTokens tx)
    (herr : (verifyRecharge i o sv cf now s).1 = Except.error msg) :
    (∀ t ∈ (verifyRecharge i o sv cf now s).2.brandTxs, t.id = i → t.status = "failed") ∧
    (verifyRecharge i o sv cf now s).2.brand.token_balance = s.brand.token_balance := by
  cases sv with
  | false =>
    unfold verifyRecharge
    simp only [hfind]
    rw [if_pos (by simp)]
    exact ⟨markBrandTx_all i "failed" _ s.brandTxs, rfl⟩
  | true =>
    cases cf with
    | true =>
      unfold verifyRecharge
      simp only [hfind]
      rw [if_neg (by simp)]
      rw [if_neg (by omega)]
      rw [if_pos (by simp)]
      exact ⟨markBrandTx_all i "failed" _ s.brandTxs, rfl⟩
    | false =>
      exfalso
      unfold verifyRecharge at herr
      simp only [hfind] at herr
      rw [if_neg (by simp)] at herr
      rw [if_neg (by omega)] at herr
      rw [if_neg (by simp)] at herr
      split at herr
      · exact Except.noConfusion herr
      · exact Except.noConfusion herr

theorem verifyRecharge_error_marks_failed_witness :
    findPendingBrandTx "t1" "o1" exSubLedger.brandTxs = some exSubTx ∧
    (0:Int) < metaTokens exSubTx ∧
    (verifyRecharge "t1" "o1" false false 9 exSubLedger).1
      = Except.error "Payment verification failed. Please contact support if amount was deducted." ∧
    (∀ t ∈ (verifyRecharge "t1" "o1" false false 9 exSubLedger).2.brandTxs,
      t.id = "t1" → t.status = "failed") ∧
    (verifyRecharge "t1" "o1" false false 9 exSubLedger).2.brand.token_balance
      = exSubLedger.brand.token_balance :=
  ⟨by decide, by decide, rfl,
    (verifyRecharge_error_marks_failed exSubLedger "t1" "o1" false false 9 exSubTx
      "Payment verification failed. Please contact support if amount was deducted."
      (by decide) (by decide) rfl).1,
    (verifyRecharge_error_marks_failed exSubLedger "t1" "o1" false false 9 exSubTx
      "Payment verification failed. Please contact support if amount was deducted."
      (by decide) (by decide) rfl).2⟩

/-- C9 counterexample: a found pending transaction whose metadata token
count is zero makes `verifyRecharge` return the invalid-token-amount
error with no write at all: the transaction is left in status `pending`
after verify returns an error for a found transaction. -/
theorem verifyRecharge_invalid_tokens_counterexample :
    verifyRecharge "t3" "o3" true false 9 exZeroLedger
      = (Except.error "Invalid token amount in transaction", exZeroLedger) ∧
    (verifyRecharge "t3" "o3" true false 9 exZeroLedger).2.brandTxs.map
      (fun t => t.status) = ["pending"] :=
  ⟨rfl, rfl⟩

/-- C10 (amended): the escrow release path records `balance_after` from
the post-mutation wallet row — the brand-side transaction snapshots the
post-update `escrow_balance` and the creator-side transaction's
`balance_after` equals the creator's balance after the credit (the
source computes it as the pre-increment read plus the amount, which
coincides with the post-mutation value in serialized executions) — but
withdrawal transactions never record `balance_after`: `createTransaction`
inserts the row without one, so a completed withdrawal carries none
(see the counterexample). -/
theorem releaseEscrow_balance_after (s : Ledger) (a : Int) (cid aid : String)
    (hpos : 0 < a) (hheld : a ≤ s.brand.escrow_on_hold) :
    ((releaseEscrow a cid aid s).2.brandTxs.map (fun t => t.balance_after)
       = s.brandTxs.map (fun t => t.balance_after)
         ++ [(releaseEscrow a cid aid s).2.brand.escrow_balance] ∧
     (releaseEscrow a cid aid s).2.creatorTxs.map (fun t => t.balance_after)
       = s.creatorTxs.map (fun t => t.balance_after)
         ++ [some ((releaseEscrow a cid aid s).2.creator.balance)]) ∧
    (∀ (s' : Ledger) (u : String) (b : Int) (acc tid : String),
      (requestWithdrawal u b acc tid s').1 = Except.ok () →
      (requestWithdrawal u b acc tid s').2.creatorTxs.map (fun t => t.balance_after)
        = s'.creatorTxs.map (fun t => t.balance_after) ++ [(none : Option Int)]) := by
  constructor
  · unfold releaseEscrow
    rw [if_neg (by omega), if_neg (by omega)]
    constructor
    · simp
    · simp
  · intro s' u b acc tid hok
    unfold requestWithdrawal at hok ⊢
    split at hok
    · exact Except.noConfusion hok
    · split at hok
      · exact Except.noConfusion hok
      · split at hok
        · exact Except.noConfusion hok
        · rename_i acct hsome hver hbal
          simp only [hsome]
          rw [if_neg hver, if_neg hbal]
          simp

theorem releaseEscrow_balance_after_witness :
    (0:Int) < 100 ∧ (100:Int) ≤ exLedger.brand.escrow_on_hold ∧
    (releaseEscrow 100 "c1" "ap1" exLedger).2.creatorTxs.map (fun t => t.balance_after)
      = exLedger.creatorTxs.map (fun t => t.balance_after)
        ++ [some ((releaseEscrow 100 "c1" "ap1" exLedger).2.creator.balance)] :=
  ⟨by decide, by decide,
    (releaseEscrow_balance_after exLedger 100 "c1" "ap1" (by decide) (by decide)).1.2⟩

/-- C10 counterexample: `processWithdrawal(success = true)` changes the
wallet (`pending_balance` drops to 0) and completes the withdrawal
transaction, yet that completed transaction's `balance_after` is `none` —
`createTransaction` never wrote one — so it does not equal the wallet's
post-mutation balance field value. -/
theorem withdrawal_completed_without_balance_after_counterexample :
    (processWithdrawal "w1" true none
        (requestWithdrawal "u1" 5000 "a1" "w1" exLedger).2).1 = Except.ok () ∧
    ((processWithdrawal "w1" true none
        (requestWithdrawal "u1" 5000 "a1" "w1" exLedger).2).2.creatorTxs.map
      (fun t => (t.status, t.balance_after)) = [("completed", (none : Option Int))]) ∧
    (processWithdrawal "w1" true none
        (requestWithdrawal "u1" 5000 "a1" "w1" exLedger).2).2.creator.pending_balance
      = 0 :=
  ⟨rfl, by decide, by decide⟩
